import Mathlib

/-!
Verification of the remote command execution and result-classification core
of the basicore repository (src/basicore/remote/remote_command.py,
remote_dir_actions.py, remote_file_actions.py), shallowly embedded in Lean.

Strings are modelled by Lean `String`; Python `str.upper` and the `in`
substring test are modelled for ASCII text; machine integers do not overflow
in this code, so exit codes are plain `Int`.
-/

/-- Boolean test that `p` is a leading segment of `l` (character lists). -/
def listStartsWith : List Char → List Char → Bool
  | _, [ ] => true
  | [ ], _ :: _ => false
  | a :: as, b :: bs => a == b && listStartsWith as bs

/-- Boolean substring test on character lists: does `needle` occur
contiguously inside `hay`?  This models Python's `needle in hay`. -/
def listHasSub (hay needle : List Char) : Bool :=
  match hay with
  | [ ] => needle.isEmpty
  | _ :: t => listStartsWith hay needle || listHasSub t needle

/-- Python `needle in hay` on strings. -/
def pyContains (hay needle : String) : Bool :=
  listHasSub hay.data needle.data

/-- Python `str.upper` on a single ASCII character. -/
def pyUpperChar (c : Char) : Char :=
  if 'a' ≤ c ∧ c ≤ 'z' then Char.ofNat (c.toNat - 32) else c

/-- Python `str.upper` (ASCII fragment). -/
def pyUpper (s : String) : String :=
  String.mk (s.data.map pyUpperChar)

/-- Specification-side substring predicate: `needle` occurs contiguously in
`hay`. -/
def IsSubstr (needle hay : String) : Prop :=
  ∃ pre post : List Char, hay.data = pre ++ needle.data ++ post

/-- Python `str` of a boolean. -/
def pyStrBool : Bool → String
  | true => "True"
  | false => "False"

/-- Embedding of the `RemoteResults` dataclass
(src/basicore/remote/remote_command.py).  Field defaults are the dataclass
defaults; the constructor sets only `command` and `command_id`. -/
structure RemoteResults where
  command : String := ""
  command_id : String := ""
  stdout : String := ""
  stderr : String := ""
  exit_code : Int := -1
  errors : Bool := false
  success : Bool := false
  completion : Bool := false
deriving DecidableEq

/-- Embedding of `RemoteResults.__repr__`. -/
def reprRemoteResults (r : RemoteResults) : String :=
  "RemoteResults(\n\tcommand_id: " ++ r.command_id ++
  ",\n\tcommand: " ++ r.command ++
  ",\n\tstdout: " ++ r.stdout ++
  ",\n\tstderr: " ++ r.stderr ++
  ",\n\texit_code: " ++ toString r.exit_code ++
  ",\n\terrors: " ++ pyStrBool r.errors ++
  ",\n\tsuccess: " ++ pyStrBool r.success ++
  ",\n\tcompletion: " ++ pyStrBool r.completion ++ "\n)"

/-- Embedding of `RemoteResults.determine_errors`: sets `errors := true` when
the case-insensitive marker "ERROR" occurs in stdout, else when it occurs in
stderr; otherwise leaves the record unchanged. -/
def determine_errors (r : RemoteResults) : RemoteResults :=
  if pyContains (pyUpper r.stdout) "ERROR" then { r with errors := true }
  else if pyContains (pyUpper r.stderr) "ERROR" then { r with errors := true }
  else r

/-- Embedding of `RemoteResults.determine_success`: first runs
`determine_errors`, then sets `success := false` when errors were detected or
the exit code is nonzero, and `success := true` otherwise.  Note the source
does not consult `completion` here. -/
def determine_success (r : RemoteResults) : RemoteResults :=
  let r1 := determine_errors r
  if r1.errors || r1.exit_code != 0 then { r1 with success := false }
  else { r1 with success := true }

/-- Embedding of the mutable state of `RemoteConnection`
(src/basicore/remote/remote_command.py): the optional live session handle
`conn` (session objects are identified by a number), the `error_message`
field written by `_set_error`, and the string rendered by
`str(self.authentication)` (the redacted `SSHConfig.__repr__`). -/
structure ConnState where
  conn : Option Nat := none
  error_message : String := ""
  authRepr : String := ""
deriving DecidableEq

/-- Outcome of one attempted transport handshake
(`paramiko.SSHClient.connect`): either a new live session or an
authentication failure. -/
inductive HandshakeOutcome where
  | ok (h : Nat)
  | authFail
deriving DecidableEq

/-- Return value of the embedded `connect`: the new connection state, the
boolean returned by the method, and whether a transport handshake was
actually attempted during the call. -/
structure ConnectResult where
  state : ConnState
  ret : Bool
  handshakeAttempted : Bool
deriving DecidableEq

/-- Embedding of `RemoteConnection.connect`.  The source reads:
if `self.conn is None`, create a client and connect (returning `True`; on
`AuthenticationException` reset `conn` to `None`, record the error message
and fall through); in every other case fall through to the final
`return False`.  In particular a call on an already-connected instance skips
the handshake and returns `False`. -/
def connect (st : ConnState) (hs : HandshakeOutcome) : ConnectResult :=
  match st.conn with
  | some _ => ⟨st, false, false⟩
  | none =>
    match hs with
    | HandshakeOutcome.ok h => ⟨{ st with conn := some h }, true, true⟩
    | HandshakeOutcome.authFail =>
      ⟨{ st with
          conn := none
          error_message :=
            "ERROR: Failed to log in to remote server. " ++ st.authRepr },
        false, true⟩

/-- Transport exceptions caught by `RemoteConnection.exec_command` and
`RemoteCommand.scp`: `paramiko.SSHException`, `socket.timeout`,
`socket.error`, each carrying `str(e)`. -/
inductive TransportExn where
  | ssh (s : String)
  | sockTimeout (s : String)
  | sockError (s : String)
deriving DecidableEq

/-- The message passed to `_set_error` (resp. stored into `res.stderr` in
`scp`) for each caught transport exception, exactly as formatted in the
source. -/
def exnMessage : TransportExn → String
  | TransportExn.ssh s =>
    "ERROR: SSH error while waiting for command to finish: " ++ s
  | TransportExn.sockTimeout s =>
    "ERROR: Socket timed out while waiting for command to finish. " ++ s
  | TransportExn.sockError s =>
    "ERROR: Socket error while waiting for command to finish: " ++ s

/-- Behaviour of the remote side during one `exec_command` dispatch:
the command runs to a terminal exit status with the given (already stripped)
stdout/stderr texts, or a transport exception is raised by the
`conn.exec_command` dispatch itself, or a transport exception is raised
inside the polling wait loop (after the locals `stdout`/`stderr` have been
rebound to the paramiko channel streams). -/
inductive ExecBehavior where
  | finished (out err : String) (exit : Int)
  | dispatchExn (e : TransportExn)
  | midWaitExn (e : TransportExn)
deriving DecidableEq

/-- Embedding of `RemoteConnection.exec_command` (stdin is dropped: no caller
reads it).  The result is the new connection state together with either the
returned `(stdout, stderr, exit_status)` triple or an uncaught Python
exception rendered as a message.

Faithful points of the source worth noting:
* the method first calls `connect()`; when that returns `False` (connect
  failure, but also — via the `connect` fall-through — a connection that is
  already live) it returns `("", "", self.error_message, -1)` immediately;
* on success the final line
  `stderr = stderr+"\n >"+self.error_message if stderr else self.error_message`
  appends the marker even to a healthy nonempty stderr;
* when a transport exception interrupts the wait loop, the local `stderr`
  is still the paramiko channel stream (not a `str`), so that same final
  line raises an uncaught `TypeError`. -/
def exec_command (st : ConnState) (hs : HandshakeOutcome) (beh : ExecBehavior) :
    ConnState × Except String (String × String × Int) :=
  let c := connect st hs
  if c.ret = false then
    (c.state, Except.ok ("", c.state.error_message, -1))
  else
    match beh with
    | ExecBehavior.finished out err exit =>
      let finalErr :=
        if err = "" then c.state.error_message
        else err ++ "\n >" ++ c.state.error_message
      (c.state, Except.ok (out, finalErr, exit))
    | ExecBehavior.dispatchExn e =>
      let st2 := { c.state with error_message := exnMessage e }
      (st2, Except.ok ("", st2.error_message, -1))
    | ExecBehavior.midWaitExn e =>
      let st2 := { c.state with error_message := exnMessage e }
      (st2, Except.error
        "TypeError: unsupported operand types for +: ChannelFile and str")

/-- Embedding of `RemoteCommand.execute`: run `exec_command`, copy the triple
into a fresh `RemoteResults`, set `completion := true` unconditionally, then
finalize with `determine_success`.  An uncaught exception from
`exec_command` propagates. -/
def execute (command command_id : String) (st : ConnState)
    (hs : HandshakeOutcome) (beh : ExecBehavior) :
    ConnState × Except String RemoteResults :=
  match exec_command st hs beh with
  | (st1, Except.error e) => (st1, Except.error e)
  | (st1, Except.ok (out, err, code)) =>
    (st1, Except.ok (determine_success
      { command := command, command_id := command_id,
        stdout := out, stderr := err, exit_code := code,
        completion := true }))

/-- Behaviour of the native SCP transfer inside `RemoteCommand.scp`: the
copy succeeds, or one of the caught transport exceptions is raised. -/
inductive ScpBehavior where
  | okTransfer
  | exn (e : TransportExn)
deriving DecidableEq

/-- The `RemoteResults` record built by `RemoteCommand.scp` just before its
final `determine_success` call, for a live connection: the synthetic command
string, the direction-derived command id, and either
`exit_code = 0, completion = true` (successful transfer) or a transport
error message in `stderr` with `completion` left `false`. -/
def scpPre (source destination : String) (beh : ScpBehavior) (put : Bool) :
    RemoteResults :=
  let base : RemoteResults :=
    { command := "scp " ++ source ++ " " ++ destination,
      command_id := if put then "scp_put" else "scp_get" }
  match beh with
  | ScpBehavior.okTransfer => { base with exit_code := 0, completion := true }
  | ScpBehavior.exn e => { base with stderr := exnMessage e }

/-- Embedding of `RemoteCommand.scp`.  When `ssh.conn` is `None`,
`ssh.conn.get_transport()` raises an uncaught `AttributeError` (only
`SSHException`/`socket` errors are caught), so no result is produced; with a
live session the record `scpPre ...` is finalized by `determine_success` and
returned (the trailing `if ssh.conn is None` overwrite is skipped because
the session is live). -/
def scp (source destination : String) (ssh : ConnState) (beh : ScpBehavior)
    (put : Bool) : Except String RemoteResults :=
  match ssh.conn with
  | none =>
    Except.error "AttributeError: NoneType object has no attribute get_transport"
  | some _ => Except.ok (determine_success (scpPre source destination beh put))

/-- The probe command built by `RemoteDirActions.exists`. -/
def dirExistsCmd (directory : String) : String :=
  "if [ -e \"" ++ directory ++ "\" ]; then exit 0; else exit 1; fi"

/-- Embedding of the interpretation step of `RemoteDirActions.exists`
(src/basicore/remote/remote_dir_actions.py, lines 30-38), applied to the
`RemoteResults` value returned by the `RemoteCommand.execute` call: raised
`RemoteExecuteException`s are modelled as `Except.error` with the exact
message. -/
def dirExists_interpret (directory : String) (results : RemoteResults) :
    Except String Bool :=
  if results.completion then
    if results.success then Except.ok true
    else if results.errors then
      Except.error ("Directory \x27" ++ directory ++
        "\x27 existence could not be verified. " ++ reprRemoteResults results)
    else Except.ok false
  else
    Except.error ("Error executing remote command: \x27" ++
      dirExistsCmd directory ++ "\x27")

/-- The `TypeError` Python raises when binding the call on line 29 of
src/basicore/remote/remote_dir_actions.py: the call passes the keyword
argument `authentication=` to `RemoteCommand.execute`, whose third
parameter is named `ssh`. -/
def executeKwCallTypeError : String :=
  "TypeError: execute() got an unexpected keyword argument \x27authentication\x27"

/-- Embedding of the whole `RemoteDirActions.exists` probe as the source
actually executes it: after building the probe command, line 29 calls
`RemoteCommand.execute(command=..., command_id=..., authentication=...)`;
since `execute`'s parameter is named `ssh`, Python raises `TypeError` while
binding the call — before any command is dispatched — for every input, so
the interpretation code below the call (embedded separately as
`dirExists_interpret`) is unreachable. -/
def dirExists (_directory : String) (_st : ConnState) (_hs : HandshakeOutcome)
    (_beh : ExecBehavior) : Except String Bool :=
  Except.error executeKwCallTypeError

/-- Embedding of `RemoteDirActions.delete` given the boolean answer of its
`RemoteDirActions.exists` call and the `RemoteResults` of the `rm` dispatch;
the second component lists the commands the body itself dispatches to the
remote host. -/
def deleteRun (directory : String) (existsAns : Bool)
    (rmResults : RemoteResults) : Except String Bool × List String :=
  if existsAns = false then (Except.ok true, [ ])
  else
    let command := "rm -rf " ++ directory
    ((if rmResults.completion then
        if rmResults.success then Except.ok true
        else if rmResults.errors then
          Except.error ("Directory \x27" ++ directory ++
            "\x27 removal not confirmed. " ++ reprRemoteResults rmResults)
        else Except.ok false
      else
        Except.error ("Error executing remote command: \x27" ++ command ++
          "\x27")),
      [command])

/-- Embedding of `RemoteDirActions.remove` (remove directory contents except
the listed exceptions), in the same style as `deleteRun`. -/
def removeRun (directory : String) (exceptions : List String)
    (existsAns : Bool) (rmResults : RemoteResults) :
    Except String Bool × List String :=
  if existsAns = false then (Except.ok true, [ ])
  else
    let exception_args :=
      String.intercalate " "
        (exceptions.map (fun e => "--exclude=\x27" ++ e ++ "\x27"))
    let command := "cd " ++ directory ++ " && rm -rf ./* " ++ exception_args
    ((if rmResults.completion then
        if rmResults.success then Except.ok true
        else if rmResults.errors then
          Except.error ("Contents of \x27" ++ directory ++
            "\x27 removal not confirmed. " ++ reprRemoteResults rmResults)
        else Except.ok false
      else
        Except.error ("Error executing remote command: \x27" ++ command ++
          "\x27")),
      [command])

/-- Python whitespace characters (the ASCII ones recognised by `str.strip`
and no-argument `str.split`). -/
def pyIsSpace (c : Char) : Bool :=
  c == ' ' || c == '\t' || c == '\n' || c == '\r' || c == '\x0b' || c == '\x0c'

/-- Python `str.strip()` (ASCII whitespace). -/
def pyStrip (s : String) : String :=
  String.mk (((s.data.dropWhile pyIsSpace).reverse.dropWhile pyIsSpace).reverse)

/-- Worker for `pySplitWs`: `acc` holds the reversed current token. -/
def wsTokensAux : List Char → List Char → List String
  | acc, [ ] => if acc = [ ] then [ ] else [String.mk acc.reverse]
  | acc, c :: rest =>
    if pyIsSpace c then
      if acc = [ ] then wsTokensAux [ ] rest
      else String.mk acc.reverse :: wsTokensAux [ ] rest
    else wsTokensAux (c :: acc) rest

/-- Python no-argument `str.split()`: split on whitespace runs, dropping
empty pieces. -/
def pySplitWs (s : String) : List String :=
  wsTokensAux [ ] s.data

/-- Worker for `pySplitNl`: `acc` holds the reversed current piece. -/
def splitLinesAux : List Char → List Char → List String
  | acc, [ ] => [String.mk acc.reverse]
  | acc, c :: rest =>
    if c = '\n' then String.mk acc.reverse :: splitLinesAux [ ] rest
    else splitLinesAux (c :: acc) rest

/-- Python `str.split('\n')`. -/
def pySplitNl (s : String) : List String :=
  splitLinesAux [ ] s.data

/-- Python `str.startswith` for a string argument. -/
def pyStartsWith (s pre : String) : Bool :=
  listStartsWith s.data pre.data

/-- Python `str.endswith` for a string argument. -/
def pyEndsWith (s suf : String) : Bool :=
  listStartsWith s.data.reverse suf.data.reverse

/-- Python `int(s)` for base 10: strip whitespace, optional sign, at least
one decimal digit; anything else raises `ValueError`. -/
def pyInt (s : String) : Except String Int :=
  let valueError : Except String Int :=
    Except.error
      ("ValueError: invalid literal for int() with base 10: " ++ s)
  let digitsVal : List Char → Option Nat := fun l =>
    l.foldl
      (fun acc c =>
        match acc with
        | none => none
        | some n => if c.isDigit then some (n * 10 + (c.toNat - 48)) else none)
      (some 0)
  match (pyStrip s).data with
  | [ ] => valueError
  | c :: rest =>
    let signDigits : Int × List Char :=
      if c = '-' then (-1, rest)
      else if c = '+' then (1, rest) else (1, c :: rest)
    if signDigits.2 = [ ] then valueError
    else
      match digitsVal signDigits.2 with
      | some n => Except.ok (signDigits.1 * n)
      | none => valueError

/-- Python `os.path.join(a, b)` for POSIX paths (two arguments). -/
def pathJoin (a b : String) : String :=
  if pyStartsWith b "/" then b
  else if a = "" || pyEndsWith a "/" then a ++ b
  else a ++ "/" ++ b

/-- Value stored in the directory-contents dictionary built by
`RemoteDirActions.list`: the regular-file branch stores a Python `int`, the
symbolic-link branch stores whatever `RemoteFileActions.follow` returned
(a `str` in the source). -/
inductive EntryVal where
  | int (n : Int)
  | str (s : String)
deriving DecidableEq

/-- Python `dict` assignment `d[k] = v` on an insertion-ordered association
list: overwrite in place when the key exists, else append. -/
def dictInsert (d : List (String × EntryVal)) (k : String) (v : EntryVal) :
    List (String × EntryVal) :=
  if d.any (fun p => p.1 == k) then
    d.map (fun p => if p.1 == k then (k, v) else p)
  else d ++ [(k, v)]

/-- The nested command built by `RemoteFileActions.follow`. -/
def followCmd (symlink_target_path : String) : String :=
  "readlink -f \"" ++ symlink_target_path ++ "\""

/-- Embedding of `RemoteFileActions.follow`
(src/basicore/remote/remote_file_actions.py): given the boolean answer of
its `RemoteFileActions.exists` call and the `RemoteResults` of the
`readlink -f` dispatch, return `""` when the path does not exist, raise when
the dispatch did not complete, return `results.stdout` on success and `""`
(`Basic.sfail`) otherwise.  Note the source returns a string in every
non-raising case — never an `int` size and never `None`. -/
def follow (existsAns : Bool) (results : RemoteResults)
    (symlink_target_path : String) : Except String String :=
  if existsAns = false then Except.ok ""
  else if results.success = false && results.completion = false then
    Except.error ("Error executing remote command: \x27" ++
      followCmd symlink_target_path ++ "\x27")
  else if results.success then Except.ok results.stdout
  else Except.ok ""

/-- One iteration of the parsing loop in `RemoteDirActions.list`
(src/basicore/remote/remote_dir_actions.py, lines 148-163): split the line
on whitespace; skip it when fewer than 9 fields; on a leading `l` in the
permissions field take the last field as the link target and store
`follow`'s answer under that key (the source's `if size is not None` guard
always holds because `follow` returns a string); otherwise parse field 4 as
the size and store it under the directory-joined last field.  The
per-target `oracle` supplies the inputs of the nested `follow` call. -/
def processLine (directory : String) (oracle : String → Bool × RemoteResults)
    (d : List (String × EntryVal)) (item : String) :
    Except String (List (String × EntryVal)) :=
  let item_info := pySplitWs item
  if item_info.length < 9 then Except.ok d
  else if pyStartsWith (item_info.headD "") "l" then
    let symlink_target_path := item_info.getLastD ""
    match follow (oracle symlink_target_path).1 (oracle symlink_target_path).2
        symlink_target_path with
    | Except.error e => Except.error e
    | Except.ok size =>
      Except.ok (dictInsert d symlink_target_path (EntryVal.str size))
  else
    match pyInt (item_info.getD 4 "") with
    | Except.error e => Except.error e
    | Except.ok size =>
      Except.ok (dictInsert d (pathJoin directory (item_info.getLastD ""))
        (EntryVal.int size))

/-- The listing command built by `RemoteDirActions.list`. -/
def listCmd (directory : String) : String := "ls -l " ++ directory

/-- Embedding of the body of `RemoteDirActions.list` after its
`RemoteDirActions.exists` guard, applied to the `RemoteResults` of the
`ls -l` dispatch: on success parse `results.stdout` line by line with
`processLine`; on detected errors raise; on a completed soft failure return
`None` (`Basic.nfail`); when the dispatch did not complete, raise. -/
def listRun (directory : String) (results : RemoteResults)
    (oracle : String → Bool × RemoteResults) :
    Except String (Option (List (String × EntryVal))) :=
  if results.completion then
    if results.success then
      match (pySplitNl (pyStrip results.stdout)).foldlM
          (processLine directory oracle) [ ] with
      | Except.error e => Except.error e
      | Except.ok d => Except.ok (some d)
    else if results.errors then
      Except.error ("Contents of \x27" ++ directory ++
        "\x27 removal not confirmed. " ++ reprRemoteResults results)
    else Except.ok none
  else
    Except.error ("Error executing remote command: \x27" ++
      listCmd directory ++ "\x27")

/-- Follow-oracle used for concrete evaluations where no symlink line
occurs. -/
def defaultOracle : String → Bool × RemoteResults := fun _ => (false, { })

/-- Follow-oracle for the concrete symlink scenario: the target exists and
the nested `readlink -f` dispatch completes successfully printing
`/abs/target`. -/
def oracleSymlink : String → Bool × RemoteResults := fun _ =>
  (true, { command := "readlink -f \"target\"", command_id := "follow_symlink",
           stdout := "/abs/target", exit_code := 0, success := true,
           completion := true })

theorem listStartsWith_iff (p l : List Char) :
    listStartsWith l p = true ↔ ∃ rest, l = p ++ rest := by
  induction p generalizing l with
  | nil => simp [listStartsWith]
  | cons b bs ih =>
    cases l with
    | nil => simp [listStartsWith]
    | cons a as =>
      simp only [listStartsWith, Bool.and_eq_true, beq_iff_eq, ih]
      constructor
      · rintro ⟨rfl, rest, rfl⟩
        exact ⟨rest, rfl⟩
      · rintro ⟨rest, h⟩
        rcases List.cons_eq_cons.mp h with ⟨rfl, rfl⟩
        exact ⟨rfl, rest, rfl⟩

theorem listHasSub_iff (p l : List Char) :
    listHasSub l p = true ↔ ∃ pre post, l = pre ++ p ++ post := by
  induction l with
  | nil =>
    simp only [listHasSub, List.isEmpty_iff]
    constructor
    · rintro rfl
      exact ⟨[ ], [ ], rfl⟩
    · rintro ⟨pre, post, h⟩
      rcases List.append_eq_nil.mp h.symm with ⟨h1, h2⟩
      exact (List.append_eq_nil.mp h1).2
  | cons a t ih =>
    simp only [listHasSub, Bool.or_eq_true, listStartsWith_iff p, ih]
    constructor
    · rintro (⟨rest, h⟩ | ⟨pre, post, h⟩)
      · exact ⟨[ ], rest, by simp [h]⟩
      · exact ⟨a :: pre, post, by simp [h]⟩
    · rintro ⟨pre, post, h⟩
      cases pre with
      | nil =>
        left
        exact ⟨post, by simpa using h⟩
      | cons x xs =>
        right
        rcases List.cons_eq_cons.mp (by simpa using h) with ⟨rfl, h2⟩
        exact ⟨xs, post, by simpa using h2⟩

theorem pyContains_iff (hay needle : String) :
    pyContains hay needle = true ↔ IsSubstr needle hay := by
  unfold pyContains IsSubstr
  exact listHasSub_iff needle.data hay.data

theorem determine_errors_stdout (r : RemoteResults) :
    (determine_errors r).stdout = r.stdout := by
  unfold determine_errors
  split <;> try rfl
  split <;> rfl

theorem determine_errors_stderr (r : RemoteResults) :
    (determine_errors r).stderr = r.stderr := by
  unfold determine_errors
  split <;> try rfl
  split <;> rfl

theorem determine_errors_exit_code (r : RemoteResults) :
    (determine_errors r).exit_code = r.exit_code := by
  unfold determine_errors
  split <;> try rfl
  split <;> rfl

theorem determine_errors_completion (r : RemoteResults) :
    (determine_errors r).completion = r.completion := by
  unfold determine_errors
  split <;> try rfl
  split <;> rfl

theorem determine_errors_command (r : RemoteResults) :
    (determine_errors r).command = r.command := by
  unfold determine_errors
  split <;> try rfl
  split <;> rfl

theorem determine_errors_errors (r : RemoteResults) :
    (determine_errors r).errors =
      (pyContains (pyUpper r.stdout) "ERROR" ||
       pyContains (pyUpper r.stderr) "ERROR" || r.errors) := by
  unfold determine_errors
  split
  · next h => simp [h]
  · next h =>
    split
    · next h2 => simp [h, h2]
    · next h2 => simp [h, h2]

theorem determine_success_success (r : RemoteResults) :
    (determine_success r).success =
      (!((determine_errors r).errors || (determine_errors r).exit_code != 0)) := by
  simp only [determine_success]
  split
  · next h => simp [h]
  · next h => simp [h]

theorem determine_success_completion (r : RemoteResults) :
    (determine_success r).completion = r.completion := by
  simp only [determine_success]
  split <;> simp [determine_errors_completion]

theorem determine_success_stderr (r : RemoteResults) :
    (determine_success r).stderr = r.stderr := by
  simp only [determine_success]
  split <;> simp [determine_errors_stderr]

theorem determine_success_stdout (r : RemoteResults) :
    (determine_success r).stdout = r.stdout := by
  simp only [determine_success]
  split <;> simp [determine_errors_stdout]

theorem determine_success_exit_code (r : RemoteResults) :
    (determine_success r).exit_code = r.exit_code := by
  simp only [determine_success]
  split <;> simp [determine_errors_exit_code]

theorem determine_success_command (r : RemoteResults) :
    (determine_success r).command = r.command := by
  simp only [determine_success]
  split <;> simp [determine_errors_command]

theorem determine_success_success_iff (r : RemoteResults) :
    (determine_success r).success = true ↔
      ((determine_errors r).errors = false ∧ r.exit_code = 0) := by
  rw [determine_success_success]
  cases h : (determine_errors r).errors with
  | true => simp [h]
  | false => simp [h, determine_errors_exit_code]

/-- Claim C1 (counterexample): `determine_success` does not require
`completion`: on a result with `completion = false`, `exit_code = 0` and no
error text it still sets `success = true`, refuting "success = true if and
only if completion == true AND errors == false AND exit_code == 0". -/
theorem determine_success_ignores_completion_cex :
    (determine_success
        ({ exit_code := 0, completion := false } : RemoteResults)).success
      = true ∧
    (determine_success
        ({ exit_code := 0, completion := false } : RemoteResults)).completion
      = false := by
  exact ⟨rfl, rfl⟩

/-- Claim C1 (amended): `determine_success` sets `success = true` iff no
errors were detected and the exit code is zero — `completion` is not
consulted.  Nevertheless every result finalized by `RemoteCommand.execute`
has `completion = true`, and every result finalized by `RemoteCommand.scp`
with `success = true` has `completion = true`, so success implies completion
for every finalized `CommandResult` the executor produces. -/
theorem determine_success_amended :
    (∀ r : RemoteResults,
      (determine_success r).success = true ↔
        ((determine_errors r).errors = false ∧ r.exit_code = 0)) ∧
    (∀ command command_id st hs beh st1 res,
      execute command command_id st hs beh = (st1, Except.ok res) →
      res.completion = true) ∧
    (∀ source destination ssh beh put res,
      scp source destination ssh beh put = Except.ok res →
      res.success = true → res.completion = true) := by
  refine ⟨determine_success_success_iff, ?_, ?_⟩
  · intro command command_id st hs beh st1 res h
    unfold execute at h
    rcases hx : exec_command st hs beh with ⟨st2, e | v⟩ <;> rw [hx] at h
    · simp at h
    · rcases v with ⟨out, err, code⟩
      simp only [Prod.mk.injEq, Except.ok.injEq] at h
      rw [← h.2, determine_success_completion]
  · intro source destination ssh beh put res h hsucc
    unfold scp at h
    rcases hc : ssh.conn with _ | s <;> rw [hc] at h
    · simp at h
    · simp only [Except.ok.injEq] at h
      subst h
      cases beh with
      | okTransfer => rw [determine_success_completion]; rfl
      | exn e =>
        exfalso
        have h0 := (determine_success_success_iff _).mp hsucc
        have : (scpPre source destination (ScpBehavior.exn e) put).exit_code
            = -1 := rfl
        omega

/-- Claim C1 (witness for the amended theorem): a concrete successful
`echo hello`-style run; the executor produces exactly the expected record and
the amended theorem's completion implication applies to it with its
hypothesis discharged by evaluation. -/
theorem determine_success_amended_witness :
    (execute "ls" "1" { } (HandshakeOutcome.ok 0)
        (ExecBehavior.finished "hello" "" 0)
      = ({ conn := some 0 },
         Except.ok { command := "ls", command_id := "1", stdout := "hello",
                     exit_code := 0, success := true, completion := true })) ∧
    ({ command := "ls", command_id := "1", stdout := "hello", exit_code := 0,
       success := true, completion := true } : RemoteResults).completion
      = true := by
  exact ⟨rfl, determine_success_amended.2.1 "ls" "1" { } (HandshakeOutcome.ok 0)
    (ExecBehavior.finished "hello" "" 0) { conn := some 0 } _ rfl⟩

/-- Claim C6: for a freshly populated result (`errors` still at its default
`false`), finalization reports `errors = true` iff the uppercased stdout or
the uppercased stderr contains "ERROR" as a substring. -/
theorem determine_errors_iff_marker (r : RemoteResults)
    (hfresh : r.errors = false) :
    (determine_errors r).errors = true ↔
      (IsSubstr "ERROR" (pyUpper r.stdout) ∨
       IsSubstr "ERROR" (pyUpper r.stderr)) := by
  rw [determine_errors_errors, hfresh]
  simp [pyContains_iff]

/-- Claim C6 (witness): the equivalence instantiated on a result whose
stdout is "ERROR: disk full" (and, explicitly, that side holds). -/
theorem determine_errors_iff_marker_witness :
    (({ stdout := "ERROR: disk full" } : RemoteResults).errors = false) ∧
    ((determine_errors ({ stdout := "ERROR: disk full" } : RemoteResults)).errors
        = true ↔
      (IsSubstr "ERROR" (pyUpper "ERROR: disk full") ∨
       IsSubstr "ERROR" (pyUpper ""))) := by
  exact ⟨rfl, determine_errors_iff_marker _ rfl⟩

theorem isSubstr_failed_log_in (ar : String) :
    IsSubstr "Failed to log in"
      ("ERROR: Failed to log in to remote server. " ++ ar) := by
  refine ⟨"ERROR: ".data, " to remote server. ".data ++ ar.data, ?_⟩
  rw [String.data_append]
  have hlit : ("ERROR: Failed to log in to remote server. ").data
      = "ERROR: ".data ++ "Failed to log in".data ++
        " to remote server. ".data := by decide
  rw [hlit]
  simp [List.append_assoc]

/-- Claim C2: every call of `RemoteDirActions.exists` raises `TypeError`
while binding the `RemoteCommand.execute(..., authentication=...)` call
(the parameter is named `ssh`), before any probe is dispatched — so in
particular a probe that would complete with exit code 1 and no "ERROR" text
never returns the negative answer: the call raises for every input.  The
interpretation code below the call does implement the claimed three-way
split — the last conjunct evaluates it on that very probe result, where it
would return `false` without raising — but it is unreachable. -/
theorem dirExists_raises_typeerror :
    (∀ (d : String) (st : ConnState) (hs : HandshakeOutcome)
        (beh : ExecBehavior),
      dirExists d st hs beh = Except.error executeKwCallTypeError) ∧
    (dirExists "/data" { authRepr := "SSHConfig()" } (HandshakeOutcome.ok 0)
        (ExecBehavior.finished "" "" 1) ≠ Except.ok false) ∧
    (dirExists_interpret "/data"
        { command := dirExistsCmd "/data", command_id := "directory_exists",
          stdout := "", stderr := "", exit_code := 1, errors := false,
          success := false, completion := true } = Except.ok false) := by
  refine ⟨fun d st hs beh => rfl, ?_, rfl⟩
  intro h
  simp [dirExists] at h

/-- Claim C3 (counterexample): on an authentication failure at `connect()`,
the result produced by `RemoteCommand.execute` has `completion = true` —
`execute` sets `completion` unconditionally once `exec_command` returns —
refuting the claimed `completion == false`. -/
theorem execute_auth_failure_completion_cex :
    Except.map RemoteResults.completion
      (execute "ls" "1" { authRepr := "SSHConfig()" }
        HandshakeOutcome.authFail (ExecBehavior.finished "" "" 0)).2
      = Except.ok true := by
  rfl

/-- Claim C3 (amended): when `connect()` fails with an authentication
failure, `execute` returns (never raises) a result with `completion = true`,
`success = false`, and a stderr that is the connection error message and
contains "Failed to log in". -/
theorem execute_auth_failure_amended :
    ∀ (command command_id : String) (st : ConnState) (beh : ExecBehavior),
      st.conn = none →
      ∃ res,
        (execute command command_id st HandshakeOutcome.authFail beh).2
          = Except.ok res ∧
        res.completion = true ∧ res.success = false ∧
        res.stderr =
          "ERROR: Failed to log in to remote server. " ++ st.authRepr ∧
        IsSubstr "Failed to log in" res.stderr := by
  intro command command_id st beh hconn
  rcases st with ⟨conn, em, ar⟩
  subst hconn
  have hres : (execute command command_id ⟨none, em, ar⟩
      HandshakeOutcome.authFail beh).2
      = Except.ok (determine_success
        { command := command, command_id := command_id, stdout := "",
          stderr := "ERROR: Failed to log in to remote server. " ++ ar,
          exit_code := -1, completion := true }) := rfl
  refine ⟨_, hres, ?_, ?_, ?_, ?_⟩
  · rw [determine_success_completion]
  · cases hsuc : (determine_success
        { command := command, command_id := command_id, stdout := "",
          stderr := "ERROR: Failed to log in to remote server. " ++ ar,
          exit_code := -1, completion := true }).success with
    | false => rfl
    | true =>
      exfalso
      have h0 := (determine_success_success_iff _).mp hsuc
      have h2 : (-1 : Int) = 0 := h0.2
      omega
  · rw [determine_success_stderr]
  · rw [determine_success_stderr]
    exact isSubstr_failed_log_in ar

/-- Claim C3 (witness): the amended theorem applied to a fresh connection
with the redacted `SSHConfig()` rendering. -/
theorem execute_auth_failure_amended_witness :
    (({ authRepr := "SSHConfig()" } : ConnState).conn = none) ∧
    ∃ res,
      (execute "ls" "1" { authRepr := "SSHConfig()" }
        HandshakeOutcome.authFail (ExecBehavior.finished "" "" 0)).2
        = Except.ok res ∧
      res.completion = true ∧ res.success = false ∧
      res.stderr = "ERROR: Failed to log in to remote server. " ++
        ({ authRepr := "SSHConfig()" } : ConnState).authRepr ∧
      IsSubstr "Failed to log in" res.stderr := by
  exact ⟨rfl, execute_auth_failure_amended "ls" "1" { authRepr := "SSHConfig()" }
    (ExecBehavior.finished "" "" 0) rfl⟩

/-- Claim C4: on a connection whose session already exists, `connect()`
leaves the session handle unchanged and performs no second handshake, but —
through the source's fall-through `return False` — it returns failure, not
success; consequently `exec_command` on a live connection aborts immediately
with empty output and exit code `-1` without dispatching the command.  This
contradicts the claimed idempotent success and the class's own purpose. -/
theorem connect_already_connected_returns_false :
    ∀ (hs : HandshakeOutcome) (beh : ExecBehavior),
      connect { conn := some 0, authRepr := "SSHConfig()" } hs
        = ⟨{ conn := some 0, authRepr := "SSHConfig()" }, false, false⟩ ∧
      exec_command { conn := some 0, authRepr := "SSHConfig()" } hs beh
        = ({ conn := some 0, authRepr := "SSHConfig()" },
           Except.ok ("", "", -1)) := by
  intro hs beh
  exact ⟨rfl, rfl⟩

/-- Claim C5: evaluating the listing of `/data` on the ls -l line
`lrwxrwxrwx 1 user group 9 May 12 10:30 link -> target` (with the target
existing and the nested `readlink -f` dispatch succeeding with stdout
`/abs/target`).  The produced entry does use key "target" — the last
whitespace-separated field — rather than "link", but its value is the
string `RemoteFileActions.follow` returned, i.e. the resolved path
`/abs/target`, not the size in bytes: `follow` returns `results.stdout` of
`readlink -f` although its own docstring (and the repository's test, which
mocks `follow` to return `1024`) promises the size. -/
theorem list_symlink_entry_is_path_not_size :
    listRun "/data"
      { command := "ls -l /data", command_id := "list_directory",
        stdout := "lrwxrwxrwx 1 user group 9 May 12 10:30 link -> target",
        exit_code := 0, success := true, completion := true }
      oracleSymlink
      = Except.ok (some [("target", EntryVal.str "/abs/target")]) := by
  rfl

/-- Claim C7: a transport exception raised inside the polling wait loop is
caught by `exec_command`'s handlers, but the final
`stderr = stderr+"\n >"+self.error_message if stderr else self.error_message`
line then raises an uncaught `TypeError` (the local `stderr` is the paramiko
channel stream, not a `str`), so the exception escapes `execute` — whereas
the same exception raised at dispatch (before the locals are rebound) is
converted to a stderr message with exit code `-1`, exactly as the claim
describes. -/
theorem exec_midwait_typeerror :
    ((execute "ls" "1" { authRepr := "SSHConfig()" } (HandshakeOutcome.ok 0)
        (ExecBehavior.midWaitExn (TransportExn.sockTimeout "timed out"))).2
      = Except.error
          "TypeError: unsupported operand types for +: ChannelFile and str") ∧
    ((execute "ls" "1" { authRepr := "SSHConfig()" } (HandshakeOutcome.ok 0)
        (ExecBehavior.dispatchExn (TransportExn.sockTimeout "timed out"))).2
      = Except.ok
          { command := "ls", command_id := "1", stdout := "",
            stderr :=
              "ERROR: Socket timed out while waiting for command to finish. timed out",
            exit_code := -1, errors := true, success := false,
            completion := true }) := by
  exact ⟨rfl, rfl⟩

/-- Claim C8: on the ls -l line
`-rw-r--r-- 1 user group 1024 May 12 10:30 file.txt` under directory
`/data`, the listing produces exactly the dictionary mapping
`/data/file.txt` (the directory joined with the last field) to the integer
1024 (field index 4); and every line with fewer than 9 whitespace-separated
fields is skipped. -/
theorem list_regular_file_entry :
    (listRun "/data"
      { command := "ls -l /data", command_id := "list_directory",
        stdout := "-rw-r--r-- 1 user group 1024 May 12 10:30 file.txt",
        exit_code := 0, success := true, completion := true }
      defaultOracle
      = Except.ok (some [("/data/file.txt", EntryVal.int 1024)])) ∧
    (∀ (directory : String) (oracle : String → Bool × RemoteResults)
       (d : List (String × EntryVal)) (item : String),
      (pySplitWs item).length < 9 →
      processLine directory oracle d item = Except.ok d) := by
  constructor
  · rfl
  · intro directory oracle d item h
    unfold processLine
    simp [h]

/-- Claim C8 (witness): the skip clause applied to the `total 0` header line
of ls -l output, whose field count is below 9. -/
theorem list_regular_file_entry_witness :
    ((pySplitWs "total 0").length < 9) ∧
    processLine "/data" defaultOracle [ ] "total 0" = Except.ok [ ] := by
  exact ⟨by decide,
    list_regular_file_entry.2 "/data" defaultOracle [ ] "total 0" (by decide)⟩

/-- Claim C9: on a live connection, `RemoteCommand.scp` builds the synthetic
command string `scp source destination`, always returns the record finalized
by `determine_success`, sets `exit_code = 0` and `completion = true` on a
successful transfer, and on any caught transport exception records the
descriptive message in stderr while `completion` stays `false`. -/
theorem scp_contract :
    ∀ (source destination : String) (ssh : ConnState) (h : Nat) (put : Bool),
      ssh.conn = some h →
      (∀ beh, scp source destination ssh beh put
        = Except.ok (determine_success (scpPre source destination beh put))) ∧
      (∀ beh, (determine_success (scpPre source destination beh put)).command
        = "scp " ++ source ++ " " ++ destination) ∧
      ((determine_success
          (scpPre source destination ScpBehavior.okTransfer put)).exit_code
        = 0 ∧
       (determine_success
          (scpPre source destination ScpBehavior.okTransfer put)).completion
        = true) ∧
      (∀ e,
        (determine_success
          (scpPre source destination (ScpBehavior.exn e) put)).completion
          = false ∧
        (determine_success
          (scpPre source destination (ScpBehavior.exn e) put)).stderr
          = exnMessage e) := by
  intro source destination ssh h put hconn
  refine ⟨?_, ?_, ⟨?_, ?_⟩, ?_⟩
  · intro beh
    unfold scp
    rw [hconn]
  · intro beh
    rw [determine_success_command]
    cases beh <;> rfl
  · rw [determine_success_exit_code]
    rfl
  · rw [determine_success_completion]
    rfl
  · intro e
    constructor
    · rw [determine_success_completion]
      rfl
    · rw [determine_success_stderr]
      rfl

/-- Claim C9 (witness): the contract applied to a live connection, on the
successful-transfer branch. -/
theorem scp_contract_witness :
    (({ conn := some 0 } : ConnState).conn = some 0) ∧
    scp "/tmp/a" "/remote/a" { conn := some 0 } ScpBehavior.okTransfer true
      = Except.ok
          (determine_success
            (scpPre "/tmp/a" "/remote/a" ScpBehavior.okTransfer true)) := by
  exact ⟨rfl,
    (scp_contract "/tmp/a" "/remote/a" { conn := some 0 } 0 true rfl).1
      ScpBehavior.okTransfer⟩

/-- Claim C10: when the existence probe answers `false`,
`RemoteDirActions.delete` and `RemoteDirActions.remove` both return `true`
immediately and dispatch no `rm` command to the remote host. -/
theorem delete_nonexistent_noop :
    ∀ (directory : String) (exceptions : List String)
      (rmResults : RemoteResults),
      deleteRun directory false rmResults = (Except.ok true, [ ]) ∧
      removeRun directory exceptions false rmResults
        = (Except.ok true, [ ]) := by
  intro directory exceptions rmResults
  exact ⟨rfl, rfl⟩
